import Mathlib

/-!
Shallow embedding of the go-jwx JOSE envelope core (packages `jws` and `jwe`,
file message.go, with struct declarations from interface.go), together with
theorems settling the specification claims about header merge/copy/set
semantics, encoded-header round-tripping, and the JWE decryption pipeline.

Go pointers that the constructors always populate are modelled as plain
values; in-place mutation is modelled by explicit state passing (a method
that mutates its receiver and may fail returns the new receiver paired with
an optional error, and the error paths return the receiver unchanged exactly
where the Go code returns before assigning).  Byte buffers are `List Nat`.
-/

/-- Bytes of a Go byte slice / buffer.Buffer. -/
abbrev Bytes := List Nat

/-- A Go `interface{}` value as it can reach the header `Set` methods:
strings, string slices, the `jwa` algorithm string types, byte buffers,
an ECDSA public key (opaque), or anything else (opaque). -/
inductive GoValue where
  | str : String → GoValue
  | strSlice : List String → GoValue
  | sigAlg : String → GoValue
  | keyEncAlg : String → GoValue
  | contentEncAlg : String → GoValue
  | buf : Bytes → GoValue
  | byteSlice : Bytes → GoValue
  | ecdsaPubKey : Nat → GoValue
  | other : Nat → GoValue
  deriving DecidableEq, Repr

/-- Association-list lookup, modelling Go map indexing. -/
def alookup (k : String) : List (String × GoValue) → Option GoValue
  | [] => none
  | (k', v) :: rest => if k' = k then some v else alookup k rest

/-- Association-list insertion with overwrite, modelling Go `m[k] = v`. -/
def ainsert (k : String) (v : GoValue) : List (String × GoValue) → List (String × GoValue)
  | [] => [(k, v)]
  | (k', v') :: rest => if k' = k then (k, v) :: rest else (k', v') :: ainsert k v rest

/-- Overlay the second map onto the first, modelling Go
`for k, v := range m2 { m1[k] = v }`. -/
def aoverlay (m1 m2 : List (String × GoValue)) : List (String × GoValue) :=
  m2.foldl (fun acc kv => ainsert kv.1 kv.2 acc) m1

/-- Modelled from the spec: URL parsing (`net/url`, an out-of-scope
collaborator) — `jku`/`x5u` "must parse as a URL".  Modelled as rejecting
strings containing control characters and accepting everything else. -/
def urlParse (s : String) : Option String :=
  if s.toList.any (fun c => c.toNat < 32) then none else some s

/-- Modelled from the spec: the `jwa` "no signature" sentinel algorithm
(`jwa.NoSignature`, from the out-of-scope `jwa` package). -/
def NoSignature : String := "none"

/-- Modelled from the spec: the `jwa` Deflate compression identifier
(`jwa.Deflate`), the JOSE `zip` value for DEFLATE. -/
def DeflateAlg : String := "DEF"

namespace Jws

/-- The jws package's sentinel error values (interface.go). -/
inductive Err where
  | invalidHeaderValue
  | otherErr : String → Err
  deriving DecidableEq, Repr

/-- jws.EssentialHeader (interface.go lines 26-38).  Go nil-able pointers
and slices are `Option`; plain strings compare to `""` for emptiness. -/
structure EssentialHeader where
  Algorithm : String := ""
  ContentType : String := ""
  Critical : Option (List String) := none
  Jwk : Option Nat := none
  JwkSetURL : Option String := none
  KeyID : String := ""
  Typ : String := ""
  X509Url : Option String := none
  X509CertChain : Option (List String) := none
  X509CertThumbprint : String := ""
  X509CertThumbprintS256 : String := ""
  deriving DecidableEq, Repr

/-- jws.Header: essential header plus the free-form extension map
(PrivateParams). -/
structure Header where
  essential : EssentialHeader := {}
  privateParams : List (String × GoValue) := []
  deriving DecidableEq, Repr

/-- jws.NewHeader. -/
def NewHeader : Header := {}

/-- jws.Header.Set (message.go lines 20-100): route a key to its typed
essential field, validating the dynamic type, or store it in the extension
map.  The Go method mutates its receiver in place and returns an error;
modelled as returning the new receiver paired with the optional error, with
every error path returning the receiver as it was at the point of the Go
`return` (i.e. unmodified). -/
def Header.set (h : Header) (key : String) (value : GoValue) : Header × Option Err :=
  match key with
  | "alg" =>
    match value with
    | .str s => ({ h with essential := { h.essential with Algorithm := s } }, none)
    | .sigAlg s => ({ h with essential := { h.essential with Algorithm := s } }, none)
    | _ => (h, some .invalidHeaderValue)
  | "cty" =>
    match value with
    | .str v => ({ h with essential := { h.essential with ContentType := v } }, none)
    | _ => (h, some .invalidHeaderValue)
  | "kid" =>
    match value with
    | .str v => ({ h with essential := { h.essential with KeyID := v } }, none)
    | _ => (h, some .invalidHeaderValue)
  | "typ" =>
    match value with
    | .str v => ({ h with essential := { h.essential with Typ := v } }, none)
    | _ => (h, some .invalidHeaderValue)
  | "x5t" =>
    match value with
    | .str v => ({ h with essential := { h.essential with X509CertThumbprint := v } }, none)
    | _ => (h, some .invalidHeaderValue)
  | "x5t#256" =>
    match value with
    | .str v => ({ h with essential := { h.essential with X509CertThumbprintS256 := v } }, none)
    | _ => (h, some .invalidHeaderValue)
  | "x5c" =>
    match value with
    | .strSlice v => ({ h with essential := { h.essential with X509CertChain := some v } }, none)
    | _ => (h, some .invalidHeaderValue)
  | "crit" =>
    match value with
    | .strSlice v => ({ h with essential := { h.essential with Critical := some v } }, none)
    | _ => (h, some .invalidHeaderValue)
  | "jku" =>
    match value with
    | .str v =>
      match urlParse v with
      | some u => ({ h with essential := { h.essential with JwkSetURL := some u } }, none)
      | none => (h, some .invalidHeaderValue)
    | _ => (h, some .invalidHeaderValue)
  | "x5u" =>
    match value with
    | .str v =>
      match urlParse v with
      | some u => ({ h with essential := { h.essential with X509Url := some u } }, none)
      | none => (h, some .invalidHeaderValue)
    | _ => (h, some .invalidHeaderValue)
  | _ => ({ h with privateParams := ainsert key value h.privateParams }, none)

/-- jws.EssentialHeader.Merge (message.go lines 121-157): overlay each
non-empty field of `h2` onto `h1`.  The Go method is a sequence of
per-field conditional assignments over distinct fields, rendered here as
one record update in the same order.  Note the Go method has no case for
`Critical` or `Jwk`, so those keep `h1`'s values. -/
def EssentialHeader.merge (h1 h2 : EssentialHeader) : EssentialHeader :=
  { h1 with
    Algorithm := if h2.Algorithm ≠ "" then h2.Algorithm else h1.Algorithm
    ContentType := if h2.ContentType ≠ "" then h2.ContentType else h1.ContentType
    JwkSetURL := if h2.JwkSetURL ≠ none then h2.JwkSetURL else h1.JwkSetURL
    KeyID := if h2.KeyID ≠ "" then h2.KeyID else h1.KeyID
    Typ := if h2.Typ ≠ "" then h2.Typ else h1.Typ
    X509Url := if h2.X509Url ≠ none then h2.X509Url else h1.X509Url
    X509CertChain := if h2.X509CertChain ≠ none then h2.X509CertChain else h1.X509CertChain
    X509CertThumbprint := if h2.X509CertThumbprint ≠ "" then
      h2.X509CertThumbprint else h1.X509CertThumbprint
    X509CertThumbprintS256 := if h2.X509CertThumbprintS256 ≠ "" then
      h2.X509CertThumbprintS256 else h1.X509CertThumbprintS256 }

/-- jws.EssentialHeader.Copy (message.go lines 176-186): assign each field
of `h2` to `h1` unconditionally.  Note the Go method copies neither
`Critical` nor `Jwk`. -/
def EssentialHeader.copyFrom (h1 h2 : EssentialHeader) : EssentialHeader :=
  { h1 with
    Algorithm := h2.Algorithm
    ContentType := h2.ContentType
    JwkSetURL := h2.JwkSetURL
    KeyID := h2.KeyID
    Typ := h2.Typ
    X509Url := h2.X509Url
    X509CertChain := h2.X509CertChain
    X509CertThumbprint := h2.X509CertThumbprint
    X509CertThumbprintS256 := h2.X509CertThumbprintS256 }

/-- jws.Header.Copy (message.go lines 159-174): fails when either side is a
nil pointer; otherwise copies the essential header field-for-field and
overlays h2's extension entries onto h1's map.  The `Option Header`
arguments model the Go `*Header` pointers. -/
def Header.copy (h1 : Option Header) (h2 : Option Header) : Except Err Header :=
  match h1 with
  | none => .error (.otherErr "copy destination is nil")
  | some h1 =>
    match h2 with
    | none => .error (.otherErr "copy target is nil")
    | some h2 =>
      .ok { essential := h1.essential.copyFrom h2.essential
            privateParams := aoverlay h1.privateParams h2.privateParams }

/-- jws.Header.Merge (message.go lines 102-119): fails when the argument is
a nil pointer; otherwise copies the receiver into a fresh header, merges
the argument's essential header onto it, and overlays the argument's
extension entries. -/
def Header.merge (h1 : Header) (h2 : Option Header) : Except Err Header :=
  match h2 with
  | none => .error (.otherErr "merge target is nil")
  | some h2 =>
    match Header.copy (some NewHeader) (some h1) with
    | .error e => .error e
    | .ok h3 =>
      .ok { essential := h3.essential.merge h2.essential
            privateParams := aoverlay h3.privateParams h2.privateParams }

/-- Modelled from the spec: `emap.Hmap.GetString` (the out-of-scope `emap`
helper) — fetch a key from a generic JSON map and fail unless it is
present with a string value. -/
def getString (m : List (String × GoValue)) (k : String) : Except Err String :=
  match alookup k m with
  | some (.str s) => .ok s
  | _ => .error (.otherErr "not a string")

/-- Modelled from the spec: `emap.Hmap.GetStringSlice` — fetch a key from a
generic JSON map and fail unless it is present with a string-list value;
on failure the accompanying Go result value is the nil slice. -/
def getStringSlice (m : List (String × GoValue)) (k : String) : Except Err (List String) :=
  match alookup k m with
  | some (.strSlice s) => .ok s
  | _ => .error (.otherErr "not a string slice")

/-- jws.EssentialHeader.Construct (message.go lines 202-236): lenient
construction from a generic JSON map.  Mirrors the Go statement for
statement, including the inverted error test on `crit` and `x5c`
(`if v, err := r.GetStringSlice(...); err != nil { h.Critical = v }`,
which assigns the extraction's nil result exactly when extraction failed). -/
def EssentialHeader.construct (h : EssentialHeader) (m : List (String × GoValue)) :
    EssentialHeader :=
  let alg0 := match getString m "alg" with
    | .ok alg => alg
    | .error _ => h.Algorithm
  { h with
    Algorithm := if alg0 = "" then NoSignature else alg0
    ContentType := (getString m "cty").toOption.getD ""
    KeyID := (getString m "kid").toOption.getD ""
    Typ := (getString m "typ").toOption.getD ""
    X509CertThumbprint := (getString m "x5t").toOption.getD ""
    X509CertThumbprintS256 := (getString m "x5t#256").toOption.getD ""
    Critical := match getStringSlice m "crit" with
      | .error _ => none
      | .ok _ => h.Critical
    X509CertChain := match getStringSlice m "x5c" with
      | .error _ => none
      | .ok _ => h.X509CertChain
    JwkSetURL := match getString m "jku" with
      | .ok v => match urlParse v with
        | some u => some u
        | none => h.JwkSetURL
      | .error _ => h.JwkSetURL
    X509Url := match getString m "x5u" with
      | .ok v => match urlParse v with
        | some u => some u
        | none => h.X509Url
      | .error _ => h.X509Url }

end Jws

/-!
### Wire model for encoded headers

On the wire an encoded header is a JSON string holding the base64url
encoding (without padding) of the JSON text of a header object.  Both the
base64url coding and the JSON-string wrapping are injective codings
performed by out-of-scope collaborators (`buffer.Buffer`, `encoding/json`),
so the wire bytes are in bijection with the decoded JSON text.  The decoded
JSON text of a header object is modelled as its ordered sequence of
key/value pairs (`JsonBytes`): JSON key order is wire-significant and is
what distinguishes non-canonical inputs from Go's canonical re-marshaling
(whitespace differences are a second, unmodelled source of the same
distinction).  Equality of wire bytes is equality of `JsonBytes`.
-/

/-- The decoded JSON text of a header object, abstracted to its ordered
key/value sequence. -/
abbrev JsonBytes := List (String × GoValue)

/-- Insert into a key-sorted association list, keeping it sorted. -/
def insertSorted (kv : String × GoValue) : JsonBytes → JsonBytes
  | [] => [kv]
  | kv' :: rest => if kv.1 ≤ kv'.1 then kv :: kv' :: rest else kv' :: insertSorted kv rest

/-- Sort an association list by key, modelling Go's sorted map marshaling. -/
def sortByKey (l : JsonBytes) : JsonBytes := l.foldr insertSorted []

namespace Jws

/-- Modelled from the spec: one step of `emap.MergeUnmarshal` (the
out-of-scope struct+map merge-unmarshal helper) for the jws header — a
recognized JSON key populates its typed essential field, any other key
populates the extension map.  Entries whose value does not fit the field's
type are skipped (the helper would error; no claim exercises that path). -/
def parseField (h : Header) (k : String) (v : GoValue) : Header :=
  match k, v with
  | "alg", .str s => { h with essential := { h.essential with Algorithm := s } }
  | "cty", .str s => { h with essential := { h.essential with ContentType := s } }
  | "crit", .strSlice l => { h with essential := { h.essential with Critical := some l } }
  | "jwk", .other n => { h with essential := { h.essential with Jwk := some n } }
  | "jku", .str s =>
    match urlParse s with
    | some u => { h with essential := { h.essential with JwkSetURL := some u } }
    | none => h
  | "kid", .str s => { h with essential := { h.essential with KeyID := s } }
  | "typ", .str s => { h with essential := { h.essential with Typ := s } }
  | "x5u", .str s =>
    match urlParse s with
    | some u => { h with essential := { h.essential with X509Url := some u } }
    | none => h
  | "x5c", .strSlice l => { h with essential := { h.essential with X509CertChain := some l } }
  | "x5t", .str s => { h with essential := { h.essential with X509CertThumbprint := s } }
  | "x5t#S256", .str s =>
    { h with essential := { h.essential with X509CertThumbprintS256 := s } }
  | _, _ => { h with privateParams := ainsert k v h.privateParams }

/-- jws.Header.UnmarshalJSON (message.go lines 192-200), i.e.
`emap.MergeUnmarshal` over the decoded JSON text: recognized keys populate
the essential header, the rest the extension map. -/
def parseHeaderJson (b : JsonBytes) : Header :=
  b.foldl (fun h kv => parseField h kv.1 kv.2) NewHeader

/-- The JSON text of a jws essential header as Go's `encoding/json`
produces it: fields in struct declaration order (interface.go lines 26-38),
each with `omitempty`. -/
def marshalEssential (e : EssentialHeader) : JsonBytes :=
  (if e.Algorithm ≠ "" then [("alg", GoValue.str e.Algorithm)] else [])
  ++ (if e.ContentType ≠ "" then [("cty", GoValue.str e.ContentType)] else [])
  ++ (match e.Critical with | some l => [("crit", GoValue.strSlice l)] | none => [])
  ++ (match e.Jwk with | some n => [("jwk", GoValue.other n)] | none => [])
  ++ (match e.JwkSetURL with | some u => [("jku", GoValue.str u)] | none => [])
  ++ (if e.KeyID ≠ "" then [("kid", GoValue.str e.KeyID)] else [])
  ++ (if e.Typ ≠ "" then [("typ", GoValue.str e.Typ)] else [])
  ++ (match e.X509Url with | some u => [("x5u", GoValue.str u)] | none => [])
  ++ (match e.X509CertChain with | some l => [("x5c", GoValue.strSlice l)] | none => [])
  ++ (if e.X509CertThumbprint ≠ "" then [("x5t", GoValue.str e.X509CertThumbprint)] else [])
  ++ (if e.X509CertThumbprintS256 ≠ ""
      then [("x5t#S256", GoValue.str e.X509CertThumbprintS256)] else [])

/-- jws.Header.MarshalJSON (message.go lines 188-190), i.e.
`emap.MergeMarshal`: one flat JSON object holding the essential fields and
the extension entries (extension keys in Go's sorted map order). -/
def marshalHeaderJson (h : Header) : JsonBytes :=
  marshalEssential h.essential ++ sortByKey h.privateParams

/-- jws.EncodedHeader (interface.go lines 48-59): a header plus `Source`,
the decoded bytes captured when parsed from serialized form. -/
structure EncodedHeader where
  header : Header := NewHeader
  Source : JsonBytes := []
  deriving DecidableEq, Repr

/-- jws.EncodedHeader.UnmarshalJSON (message.go lines 261-275): decode the
wire bytes (modelled by the `JsonBytes` bijection), unmarshal the header,
and store the decoded bytes as `Source`. -/
def EncodedHeader.unmarshalJSON (buf : JsonBytes) : EncodedHeader :=
  { header := parseHeaderJson buf, Source := buf }

/-- jws.EncodedHeader.MarshalJSON (message.go lines 247-259): marshal the
header to JSON, base64url-encode, and wrap as a JSON string (the latter two
modelled by the bijection).  Note the Go method re-marshals the header
unconditionally — it never consults `Source`. -/
def EncodedHeader.marshalJSON (e : EncodedHeader) : JsonBytes :=
  marshalHeaderJson e.header

end Jws

namespace Jwe

/-- The jwe package's sentinel error values. -/
inductive Err where
  | invalidHeaderValue
  | otherErr : String → Err
  deriving DecidableEq, Repr

/-- jwe.EssentialHeader (declared in the jwe package's interface file,
absent from the sources; fields and JSON keys reconstructed from the uses
in message.go — Get/Set/Merge/Copy/UnmarshalJSON — and the spec's JWE key
list).  Buffers (`apu`/`apv`) test emptiness by length; pointers and
slices by nil. -/
structure EssentialHeader where
  AgreementPartyUInfo : Bytes := []
  AgreementPartyVInfo : Bytes := []
  Algorithm : String := ""
  Compression : String := ""
  ContentEncryption : String := ""
  ContentType : String := ""
  Critical : Option (List String) := none
  EphemeralPublicKey : Option Nat := none
  Jwk : Option Nat := none
  JwkSetURL : Option String := none
  KeyID : String := ""
  Typ : String := ""
  X509Url : Option String := none
  X509CertChain : Option (List String) := none
  X509CertThumbprint : String := ""
  X509CertThumbprintS256 : String := ""
  deriving DecidableEq, Repr

/-- jwe.Header: essential header plus the free-form extension map. -/
structure Header where
  essential : EssentialHeader := {}
  privateParams : List (String × GoValue) := []
  deriving DecidableEq, Repr

/-- jwe.NewHeader (message.go lines 352-357). -/
def NewHeader : Header := {}

/-- jwe.Header.Set (message.go lines 404-528).  Same state-passing model as
for jws: the pair's second component is the returned error, and error paths
return the receiver unchanged.  Note the Go switch has no case for `zip`,
`jwk`, or `x5t#S256` (it uses `x5t#256`): those keys fall to the default
arm and land in the extension map. -/
def Header.set (h : Header) (key : String) (value : GoValue) : Header × Option Err :=
  match key with
  | "alg" =>
    match value with
    | .str s => ({ h with essential := { h.essential with Algorithm := s } }, none)
    | .keyEncAlg s => ({ h with essential := { h.essential with Algorithm := s } }, none)
    | _ => (h, some .invalidHeaderValue)
  | "apu" =>
    match value with
    | .buf b => ({ h with essential := { h.essential with AgreementPartyUInfo := b } }, none)
    | .byteSlice b => ({ h with essential := { h.essential with AgreementPartyUInfo := b } }, none)
    | .str s =>
      ({ h with essential :=
          { h.essential with AgreementPartyUInfo := s.toList.map Char.toNat } }, none)
    | _ => (h, some .invalidHeaderValue)
  | "apv" =>
    match value with
    | .buf b => ({ h with essential := { h.essential with AgreementPartyVInfo := b } }, none)
    | .byteSlice b => ({ h with essential := { h.essential with AgreementPartyVInfo := b } }, none)
    | .str s =>
      ({ h with essential :=
          { h.essential with AgreementPartyVInfo := s.toList.map Char.toNat } }, none)
    | _ => (h, some .invalidHeaderValue)
  | "enc" =>
    match value with
    | .str s => ({ h with essential := { h.essential with ContentEncryption := s } }, none)
    | .contentEncAlg s => ({ h with essential := { h.essential with ContentEncryption := s } }, none)
    | _ => (h, some .invalidHeaderValue)
  | "cty" =>
    match value with
    | .str v => ({ h with essential := { h.essential with ContentType := v } }, none)
    | _ => (h, some .invalidHeaderValue)
  | "epk" =>
    match value with
    | .ecdsaPubKey k => ({ h with essential := { h.essential with EphemeralPublicKey := some k } }, none)
    | _ => (h, some .invalidHeaderValue)
  | "kid" =>
    match value with
    | .str v => ({ h with essential := { h.essential with KeyID := v } }, none)
    | _ => (h, some .invalidHeaderValue)
  | "typ" =>
    match value with
    | .str v => ({ h with essential := { h.essential with Typ := v } }, none)
    | _ => (h, some .invalidHeaderValue)
  | "x5t" =>
    match value with
    | .str v => ({ h with essential := { h.essential with X509CertThumbprint := v } }, none)
    | _ => (h, some .invalidHeaderValue)
  | "x5t#256" =>
    match value with
    | .str v => ({ h with essential := { h.essential with X509CertThumbprintS256 := v } }, none)
    | _ => (h, some .invalidHeaderValue)
  | "x5c" =>
    match value with
    | .strSlice v => ({ h with essential := { h.essential with X509CertChain := some v } }, none)
    | _ => (h, some .invalidHeaderValue)
  | "crit" =>
    match value with
    | .strSlice v => ({ h with essential := { h.essential with Critical := some v } }, none)
    | _ => (h, some .invalidHeaderValue)
  | "jku" =>
    match value with
    | .str v =>
      match urlParse v with
      | some u => ({ h with essential := { h.essential with JwkSetURL := some u } }, none)
      | none => (h, some .invalidHeaderValue)
    | _ => (h, some .invalidHeaderValue)
  | "x5u" =>
    match value with
    | .str v =>
      match urlParse v with
      | some u => ({ h with essential := { h.essential with X509Url := some u } }, none)
      | none => (h, some .invalidHeaderValue)
    | _ => (h, some .invalidHeaderValue)
  | _ => ({ h with privateParams := ainsert key value h.privateParams }, none)

/-- jwe.EssentialHeader.Merge (message.go lines 549-613): overlay each
non-empty field of `h2` onto `h1`.  The Go method is a sequence of
per-field conditional assignments over distinct fields, rendered here as
one record update in the same order; every essential field has a case. -/
def EssentialHeader.merge (h1 h2 : EssentialHeader) : EssentialHeader :=
  { AgreementPartyUInfo := if h2.AgreementPartyUInfo.length ≠ 0 then
      h2.AgreementPartyUInfo else h1.AgreementPartyUInfo
    AgreementPartyVInfo := if h2.AgreementPartyVInfo.length ≠ 0 then
      h2.AgreementPartyVInfo else h1.AgreementPartyVInfo
    Algorithm := if h2.Algorithm ≠ "" then h2.Algorithm else h1.Algorithm
    ContentEncryption := if h2.ContentEncryption ≠ "" then
      h2.ContentEncryption else h1.ContentEncryption
    ContentType := if h2.ContentType ≠ "" then h2.ContentType else h1.ContentType
    Compression := if h2.Compression ≠ "" then h2.Compression else h1.Compression
    Critical := if h2.Critical ≠ none then h2.Critical else h1.Critical
    EphemeralPublicKey := if h2.EphemeralPublicKey ≠ none then
      h2.EphemeralPublicKey else h1.EphemeralPublicKey
    Jwk := if h2.Jwk ≠ none then h2.Jwk else h1.Jwk
    JwkSetURL := if h2.JwkSetURL ≠ none then h2.JwkSetURL else h1.JwkSetURL
    KeyID := if h2.KeyID ≠ "" then h2.KeyID else h1.KeyID
    Typ := if h2.Typ ≠ "" then h2.Typ else h1.Typ
    X509Url := if h2.X509Url ≠ none then h2.X509Url else h1.X509Url
    X509CertChain := if h2.X509CertChain ≠ none then h2.X509CertChain else h1.X509CertChain
    X509CertThumbprint := if h2.X509CertThumbprint ≠ "" then
      h2.X509CertThumbprint else h1.X509CertThumbprint
    X509CertThumbprintS256 := if h2.X509CertThumbprintS256 ≠ "" then
      h2.X509CertThumbprintS256 else h1.X509CertThumbprintS256 }

/-- jwe.EssentialHeader.Copy (message.go lines 632-649): assign every field
of `h2` to `h1` unconditionally. -/
def EssentialHeader.copyFrom (_h1 h2 : EssentialHeader) : EssentialHeader :=
  { AgreementPartyUInfo := h2.AgreementPartyUInfo
    AgreementPartyVInfo := h2.AgreementPartyVInfo
    Algorithm := h2.Algorithm
    ContentEncryption := h2.ContentEncryption
    ContentType := h2.ContentType
    Compression := h2.Compression
    Critical := h2.Critical
    EphemeralPublicKey := h2.EphemeralPublicKey
    Jwk := h2.Jwk
    JwkSetURL := h2.JwkSetURL
    KeyID := h2.KeyID
    Typ := h2.Typ
    X509Url := h2.X509Url
    X509CertChain := h2.X509CertChain
    X509CertThumbprint := h2.X509CertThumbprint
    X509CertThumbprintS256 := h2.X509CertThumbprintS256 }

/-- jwe.Header.Copy (message.go lines 615-630): fails when either side is a
nil pointer; otherwise copies the essential header field-for-field and
overlays h2's extension entries onto h1's map. -/
def Header.copy (h1 : Option Header) (h2 : Option Header) : Except Err Header :=
  match h1 with
  | none => .error (.otherErr "copy destination is nil")
  | some h1 =>
    match h2 with
    | none => .error (.otherErr "copy target is nil")
    | some h2 =>
      .ok { essential := h1.essential.copyFrom h2.essential
            privateParams := aoverlay h1.privateParams h2.privateParams }

/-- jwe.Header.Merge (message.go lines 530-547): fails when the argument is
a nil pointer; otherwise copies the receiver into a fresh header, merges
the argument's essential header onto it, and overlays the argument's
extension entries. -/
def Header.merge (h1 : Header) (h2 : Option Header) : Except Err Header :=
  match h2 with
  | none => .error (.otherErr "merge target is nil")
  | some h2 =>
    match Header.copy (some NewHeader) (some h1) with
    | .error e => .error e
    | .ok h3 =>
      .ok { essential := h3.essential.merge h2.essential
            privateParams := aoverlay h3.privateParams h2.privateParams }

end Jwe

namespace Jwe

/-- Modelled from the spec: one step of the jwe header unmarshal
(message.go lines 655-681, essential-field decode plus leftover `Set`) — a
recognized JWE JSON key populates its typed essential field, any other key
lands in the extension map.  Ill-typed values are skipped (no claim
exercises that path). -/
def parseField (h : Header) (k : String) (v : GoValue) : Header :=
  match k, v with
  | "alg", .str s => { h with essential := { h.essential with Algorithm := s } }
  | "apu", .buf b => { h with essential := { h.essential with AgreementPartyUInfo := b } }
  | "apv", .buf b => { h with essential := { h.essential with AgreementPartyVInfo := b } }
  | "enc", .str s => { h with essential := { h.essential with ContentEncryption := s } }
  | "zip", .str s => { h with essential := { h.essential with Compression := s } }
  | "cty", .str s => { h with essential := { h.essential with ContentType := s } }
  | "crit", .strSlice l => { h with essential := { h.essential with Critical := some l } }
  | "epk", .ecdsaPubKey n => { h with essential := { h.essential with EphemeralPublicKey := some n } }
  | "jwk", .other n => { h with essential := { h.essential with Jwk := some n } }
  | "jku", .str s =>
    match urlParse s with
    | some u => { h with essential := { h.essential with JwkSetURL := some u } }
    | none => h
  | "kid", .str s => { h with essential := { h.essential with KeyID := s } }
  | "typ", .str s => { h with essential := { h.essential with Typ := s } }
  | "x5u", .str s =>
    match urlParse s with
    | some u => { h with essential := { h.essential with X509Url := some u } }
    | none => h
  | "x5c", .strSlice l => { h with essential := { h.essential with X509CertChain := some l } }
  | "x5t", .str s => { h with essential := { h.essential with X509CertThumbprint := s } }
  | "x5t#S256", .str s =>
    { h with essential := { h.essential with X509CertThumbprintS256 := s } }
  | _, _ => { h with privateParams := ainsert k v h.privateParams }

/-- jwe.Header.UnmarshalJSON (message.go lines 655-681) over the decoded
JSON text. -/
def parseHeaderJson (b : JsonBytes) : Header :=
  b.foldl (fun h kv => parseField h kv.1 kv.2) NewHeader

/-- The JSON text of a jwe essential header in Go struct-marshal style
(fields in declaration order, `omitempty`). -/
def marshalEssential (e : EssentialHeader) : JsonBytes :=
  (if e.AgreementPartyUInfo.length ≠ 0 then [("apu", GoValue.buf e.AgreementPartyUInfo)] else [])
  ++ (if e.AgreementPartyVInfo.length ≠ 0 then [("apv", GoValue.buf e.AgreementPartyVInfo)] else [])
  ++ (if e.Algorithm ≠ "" then [("alg", GoValue.str e.Algorithm)] else [])
  ++ (if e.Compression ≠ "" then [("zip", GoValue.str e.Compression)] else [])
  ++ (if e.ContentEncryption ≠ "" then [("enc", GoValue.str e.ContentEncryption)] else [])
  ++ (if e.ContentType ≠ "" then [("cty", GoValue.str e.ContentType)] else [])
  ++ (match e.Critical with | some l => [("crit", GoValue.strSlice l)] | none => [])
  ++ (match e.EphemeralPublicKey with | some n => [("epk", GoValue.ecdsaPubKey n)] | none => [])
  ++ (match e.Jwk with | some n => [("jwk", GoValue.other n)] | none => [])
  ++ (match e.JwkSetURL with | some u => [("jku", GoValue.str u)] | none => [])
  ++ (if e.KeyID ≠ "" then [("kid", GoValue.str e.KeyID)] else [])
  ++ (if e.Typ ≠ "" then [("typ", GoValue.str e.Typ)] else [])
  ++ (match e.X509Url with | some u => [("x5u", GoValue.str u)] | none => [])
  ++ (match e.X509CertChain with | some l => [("x5c", GoValue.strSlice l)] | none => [])
  ++ (if e.X509CertThumbprint ≠ "" then [("x5t", GoValue.str e.X509CertThumbprint)] else [])
  ++ (if e.X509CertThumbprintS256 ≠ ""
      then [("x5t#S256", GoValue.str e.X509CertThumbprintS256)] else [])

/-- jwe.Header.MarshalJSON (message.go lines 651-653), i.e.
`emap.MergeMarshal`. -/
def marshalHeaderJson (h : Header) : JsonBytes :=
  marshalEssential h.essential ++ sortByKey h.privateParams

/-- jwe.EncodedHeader: a header plus `Source` (the struct is declared in
the jwe interface file, absent from the sources; the spec's Encoded Header
pairs the header with the decoded source bytes, as in its jws twin). -/
structure EncodedHeader where
  header : Header := NewHeader
  Source : JsonBytes := []
  deriving DecidableEq, Repr

/-- jwe.NewEncodedHeader (message.go lines 359-363). -/
def NewEncodedHeader : EncodedHeader := {}

/-- jwe.EncodedHeader.UnmarshalJSON (message.go lines 705-717): decode the
wire bytes and unmarshal the header.  Note that unlike its jws twin the Go
method never assigns `e.Source`, which therefore keeps its zero value. -/
def EncodedHeader.unmarshalJSON (buf : JsonBytes) : EncodedHeader :=
  { header := parseHeaderJson buf, Source := [] }

/-- jwe.EncodedHeader.Base64Encode (message.go lines 683-695): marshal the
header to JSON and base64url-encode (the latter modelled by the bijection);
`Source` is never consulted. -/
def EncodedHeader.base64Encode (e : EncodedHeader) : JsonBytes :=
  marshalHeaderJson e.header

/-- jwe.EncodedHeader.MarshalJSON (message.go lines 697-703): the
Base64Encode result wrapped as a JSON string (wrapping modelled by the
bijection). -/
def EncodedHeader.marshalJSON (e : EncodedHeader) : JsonBytes :=
  e.base64Encode

end Jwe

/-- Modelled from the spec: base64url encoding without padding
(`buffer.Buffer.Base64Encode`, an out-of-scope collaborator), abstracted to
an injective radix-64 digit expansion of the byte sequence. -/
def base64urlEncode (b : Bytes) : Bytes :=
  b.foldr (fun n acc => n / 64 :: n % 64 :: acc) []

/-- An injective rendering of a header's JSON text to raw bytes (tagging
keys and values), giving the decoded JSON text a byte-buffer form where a
claim compares it with a raw byte buffer. -/
def renderGoValue : GoValue → Bytes
  | .str s => 2 :: s.toList.map Char.toNat
  | .strSlice l => 3 :: l.flatMap (fun s => 0 :: s.toList.map Char.toNat)
  | .sigAlg s => 4 :: s.toList.map Char.toNat
  | .keyEncAlg s => 5 :: s.toList.map Char.toNat
  | .contentEncAlg s => 6 :: s.toList.map Char.toNat
  | .buf b => 7 :: b
  | .byteSlice b => 8 :: b
  | .ecdsaPubKey n => [9, n]
  | .other n => [10, n]

/-- Injective rendering of the decoded JSON text (`JsonBytes`) to raw
bytes. -/
def jsonRender (b : JsonBytes) : Bytes :=
  b.flatMap (fun kv => 0 :: kv.1.toList.map Char.toNat ++ 1 :: renderGoValue kv.2)

/-- Modelled from the spec: the DEFLATE compressor (`compress/flate`,
codec internals out of scope), abstracted to an injective marker-prefix
coding; only the round-trip law with `inflate` and `deflate x ≠ x` are
relevant. -/
def deflate (b : Bytes) : Bytes := 120 :: b

/-- Modelled from the spec: DEFLATE decompression, the left inverse of
`deflate`; fails on data that is not `deflate` output. -/
def inflate : Bytes → Option Bytes
  | 120 :: rest => some rest
  | _ => none

namespace Jwe

/-- An opaque decryption key (Go `interface{}`); the environment closes
over its interpretation. -/
abbrev GoKey := Nat

/-- Modelled from the spec: the content-cipher contract —
`key_size() -> int` and
`decrypt(key, iv, ciphertext, tag, aad) -> plaintext | error`. -/
structure ContentCipher where
  keySize : Nat
  decrypt : Bytes → Bytes → Bytes → Bytes → Bytes → Option Bytes

/-- Modelled from the spec: the key-decrypter contract —
`key_decrypt(wrapped_bytes) -> cek | error`. -/
structure KeyDecrypter where
  keyDecrypt : Bytes → Option Bytes

/-- Modelled from the spec: the per-algorithm dispatch environment
(`BuildContentCipher` and `BuildKeyDecrypter`, resolved purely from
identifier strings; the supported set is fixed, unknown identifiers are
errors).  `buildKeyDecrypter` receives the algorithm, the merged header,
the supplied key and the content cipher's key size. -/
structure DecryptEnv where
  buildContentCipher : String → Option ContentCipher
  buildKeyDecrypter : String → Header → GoKey → Nat → Option KeyDecrypter

/-- jwe.Recipient: a per-recipient header plus the wrapped CEK bytes. -/
structure Recipient where
  Header : Header := NewHeader
  EncryptedKey : Bytes := []

/-- jwe.Message: protected encoded header, unprotected header, AAD buffer,
IV, ciphertext, tag, recipients. -/
structure Message where
  ProtectedHeader : EncodedHeader := NewEncodedHeader
  UnprotectedHeader : Header := NewHeader
  AuthenticatedData : Bytes := []
  CipherText : Bytes := []
  InitializationVector : Bytes := []
  Tag : Bytes := []
  Recipients : List Recipient := []

/-- The recipient loop of jwe.Message.Decrypt (message.go lines 760-797),
modelled recipient by recipient.  `.error` is the Go `return nil, err`
inside the loop, `.ok (some pt)` is the `break` with a recovered
plaintext, `.ok none` is falling off the end of the loop with `plaintext`
still nil.  Mirrors the Go statements in order: skip when the recipient's
own header algorithm differs from `alg`; copy the base header and merge
the recipient header (continuing on failure); build the key decrypter
(continuing on failure); decrypt the wrapped CEK — where the Go code
returns from Decrypt on failure (the `continue` after that `return` is
unreachable); finally try content decryption, breaking on success and
continuing on failure. -/
def decryptLoop (env : DecryptEnv) (cipher : ContentCipher) (h : Header) (alg : String)
    (key : GoKey) (keysize : Nat) (aad iv ciphertext tag : Bytes) :
    List Recipient → Except String (Option Bytes)
  | [] => .ok none
  | r :: rest =>
    if r.Header.essential.Algorithm ≠ alg then
      decryptLoop env cipher h alg key keysize aad iv ciphertext tag rest
    else
      match Header.copy (some NewHeader) (some h) with
      | .error _ => decryptLoop env cipher h alg key keysize aad iv ciphertext tag rest
      | .ok h2 =>
      match h2.merge (some r.Header) with
      | .error _ => decryptLoop env cipher h alg key keysize aad iv ciphertext tag rest
      | .ok h2 =>
      match env.buildKeyDecrypter h2.essential.Algorithm h2 key keysize with
      | none => decryptLoop env cipher h alg key keysize aad iv ciphertext tag rest
      | some k =>
      match k.keyDecrypt r.EncryptedKey with
      | none => .error "failed to decrypt key"
      | some cek =>
      match cipher.decrypt cek iv ciphertext tag aad with
      | some pt => .ok (some pt)
      | none => decryptLoop env cipher h alg key keysize aad iv ciphertext tag rest

/-- jwe.Message.Decrypt (message.go lines 726-821): reject an empty
recipient list; take `enc` from the protected header; build the base
header as copy(protected) merged with the unprotected header; compute the
AAD as the base64url encoding of the Message's `AuthenticatedData` buffer;
resolve the content cipher; run the recipient loop; fail when no recipient
produced a plaintext; and in the `Deflate` case feed the recovered
plaintext through a `flate` *writer* (i.e. compress it) before returning. -/
def Message.decrypt (env : DecryptEnv) (m : Message) (alg : String) (key : GoKey) :
    Except String Bytes :=
  if m.Recipients.length = 0 then .error "no recipients, can not proceed with decrypt"
  else
    let enc := m.ProtectedHeader.header.essential.ContentEncryption
    match Header.copy (some NewHeader) (some m.ProtectedHeader.header) with
    | .error _ => .error "failed to copy protected header"
    | .ok h0 =>
    match h0.merge (some m.UnprotectedHeader) with
    | .error _ => .error "failed to merge unprotected header"
    | .ok h =>
    let aad := base64urlEncode m.AuthenticatedData
    let ciphertext := m.CipherText
    let iv := m.InitializationVector
    let tag := m.Tag
    match env.buildContentCipher enc with
    | none => .error ("unsupported content cipher algorithm , " ++ enc)
    | some cipher =>
    let keysize := cipher.keySize
    match decryptLoop env cipher h alg key keysize aad iv ciphertext tag m.Recipients with
    | .error e => .error e
    | .ok none => .error "failed to find matching recipient to decrypt key"
    | .ok (some plaintext) =>
      if h.essential.Compression = DeflateAlg then .ok (deflate plaintext)
      else .ok plaintext

end Jwe

/-!
### Shared lemmas about the association-list map model
-/

theorem alookup_ainsert (k k' : String) (v : GoValue) (m : List (String × GoValue)) :
    alookup k (ainsert k' v m) = if k' = k then some v else alookup k m := by
  induction m with
  | nil => simp [ainsert, alookup]
  | cons kv rest ih =>
    obtain ⟨a, b⟩ := kv
    by_cases h1 : a = k'
    · subst h1
      simp only [ainsert, if_pos rfl]
      by_cases h2 : a = k
      · subst h2; simp [alookup]
      · simp [alookup, h2]
    · simp only [ainsert, if_neg h1]
      by_cases h2 : a = k
      · subst h2
        have hne : ¬ (k' = a) := fun hc => h1 hc.symm
        simp [alookup, hne]
      · simp [alookup, h2, ih]

theorem alookup_eq_none (k : String) (m : List (String × GoValue))
    (h : k ∉ m.map Prod.fst) : alookup k m = none := by
  induction m with
  | nil => rfl
  | cons kv rest ih =>
    obtain ⟨a, b⟩ := kv
    simp only [List.map_cons, List.mem_cons] at h
    push_neg at h
    have h1 : ¬ (a = k) := fun hc => h.1 hc.symm
    simp [alookup, h1, ih h.2]

theorem alookup_aoverlay (k : String) (m2 m1 : List (String × GoValue))
    (hnd : (m2.map Prod.fst).Nodup) :
    alookup k (aoverlay m1 m2) =
      match alookup k m2 with
      | some v => some v
      | none => alookup k m1 := by
  induction m2 generalizing m1 with
  | nil => simp [aoverlay, alookup]
  | cons kv rest ih =>
    obtain ⟨a, b⟩ := kv
    have hnd2 : (rest.map Prod.fst).Nodup := (List.nodup_cons.mp (by simpa using hnd)).2
    have hkv : a ∉ rest.map Prod.fst := (List.nodup_cons.mp (by simpa using hnd)).1
    have hstep : aoverlay m1 ((a, b) :: rest) = aoverlay (ainsert a b m1) rest := rfl
    rw [hstep, ih _ hnd2]
    by_cases hk : a = k
    · subst hk
      have hres : alookup a rest = none := alookup_eq_none _ _ hkv
      simp [alookup, hres, alookup_ainsert]
    · simp [alookup, hk, alookup_ainsert]

/-!
### Claim theorems
-/

/-- C9: for every Header `h`, `key`, and `value`: if `Set(h, key, value)`
returns an error (InvalidHeaderValue), then `h` is unchanged — no essential
field and no extension-map entry was modified by the failed call.  Holds
for both the jws and the jwe header. -/
theorem c9_set_error_leaves_header_unchanged (key : String) (value : GoValue) :
    (∀ h : Jws.Header, ((Jws.Header.set h key value).2).isSome →
      (Jws.Header.set h key value).1 = h) ∧
    (∀ h : Jwe.Header, ((Jwe.Header.set h key value).2).isSome →
      (Jwe.Header.set h key value).1 = h) := by
  constructor
  · intro h herr
    unfold Jws.Header.set at *
    split at herr <;>
      solve
        | rfl
        | simp at herr
        | (cases value <;>
            solve
              | rfl
              | simp at herr
              | (revert herr; split <;> intro herr <;>
                  solve
                    | simp_all
                    | (revert herr; split <;> intro herr <;> simp_all)))
  · intro h herr
    unfold Jwe.Header.set at *
    split at herr <;>
      solve
        | rfl
        | simp at herr
        | (cases value <;>
            solve
              | rfl
              | simp at herr
              | (revert herr; split <;> intro herr <;>
                  solve
                    | simp_all
                    | (revert herr; split <;> intro herr <;> simp_all)))

/-- Witness for C9 at a concrete failed `Set`: setting `cty` to a string
slice fails with InvalidHeaderValue and leaves both headers unchanged. -/
theorem c9_witness :
    ((Jws.Header.set Jws.NewHeader "cty" (GoValue.strSlice [])).2.isSome ∧
      (Jws.Header.set Jws.NewHeader "cty" (GoValue.strSlice [])).1 = Jws.NewHeader) ∧
    ((Jwe.Header.set Jwe.NewHeader "cty" (GoValue.strSlice [])).2.isSome ∧
      (Jwe.Header.set Jwe.NewHeader "cty" (GoValue.strSlice [])).1 = Jwe.NewHeader) :=
  ⟨⟨by decide,
      (c9_set_error_leaves_header_unchanged "cty" (GoValue.strSlice [])).1 Jws.NewHeader
        (by decide)⟩,
    ⟨by decide,
      (c9_set_error_leaves_header_unchanged "cty" (GoValue.strSlice [])).2 Jwe.NewHeader
        (by decide)⟩⟩

/-- C10: JWS EssentialHeader.Construct assigns Critical and X509CertChain
only when string-slice extraction of crit / x5c returns an error (assigning
the extraction's zero value, nil), so a well-formed string-list crit or x5c
entry present in `m` is never stored; absent or invalid alg (and alg
present as the empty string) defaults to the NoSignature sentinel; other
absent fields default to zero values, and no error is surfaced (the model
of Construct is total). -/
theorem c10_construct_inverted_crit_x5c (h : Jws.EssentialHeader)
    (m : List (String × GoValue)) :
    (∀ v, Jws.getStringSlice m "crit" = .ok v →
      (Jws.EssentialHeader.construct h m).Critical = h.Critical) ∧
    (∀ e, Jws.getStringSlice m "crit" = .error e →
      (Jws.EssentialHeader.construct h m).Critical = none) ∧
    (∀ v, Jws.getStringSlice m "x5c" = .ok v →
      (Jws.EssentialHeader.construct h m).X509CertChain = h.X509CertChain) ∧
    (∀ e, Jws.getStringSlice m "x5c" = .error e →
      (Jws.EssentialHeader.construct h m).X509CertChain = none) ∧
    (h.Algorithm = "" → ∀ e, Jws.getString m "alg" = .error e →
      (Jws.EssentialHeader.construct h m).Algorithm = NoSignature) ∧
    (Jws.getString m "alg" = .ok "" →
      (Jws.EssentialHeader.construct h m).Algorithm = NoSignature) ∧
    (∀ e, Jws.getString m "cty" = .error e →
      (Jws.EssentialHeader.construct h m).ContentType = "") ∧
    (∀ e, Jws.getString m "kid" = .error e →
      (Jws.EssentialHeader.construct h m).KeyID = "") ∧
    (∀ e, Jws.getString m "typ" = .error e →
      (Jws.EssentialHeader.construct h m).Typ = "") := by
  refine ⟨?_, ?_, ?_, ?_, ?_, ?_, ?_, ?_, ?_⟩
  · intro v hv; simp [Jws.EssentialHeader.construct, hv]
  · intro e he; simp [Jws.EssentialHeader.construct, he]
  · intro v hv; simp [Jws.EssentialHeader.construct, hv]
  · intro e he; simp [Jws.EssentialHeader.construct, he]
  · intro halg e he; simp [Jws.EssentialHeader.construct, he, halg]
  · intro halg; simp [Jws.EssentialHeader.construct, halg]
  · intro e he; simp [Jws.EssentialHeader.construct, he, Except.toOption]
  · intro e he; simp [Jws.EssentialHeader.construct, he, Except.toOption]
  · intro e he; simp [Jws.EssentialHeader.construct, he, Except.toOption]

/-- Witness for C10 at a concrete map carrying a well-formed `crit` list
and nothing else: the list is extractable, yet the constructed header's
Critical stays empty, and the algorithm defaults to the sentinel. -/
theorem c10_witness :
    Jws.getStringSlice [("crit", GoValue.strSlice ["exp"])] "crit" = .ok ["exp"] ∧
    (Jws.EssentialHeader.construct {} [("crit", GoValue.strSlice ["exp"])]).Critical = none ∧
    (Jws.EssentialHeader.construct {} [("crit", GoValue.strSlice ["exp"])]).Algorithm =
      NoSignature :=
  ⟨by rfl,
    (c10_construct_inverted_crit_x5c {} [("crit", GoValue.strSlice ["exp"])]).1 ["exp"] (by rfl),
    (c10_construct_inverted_crit_x5c {} [("crit", GoValue.strSlice ["exp"])]).2.2.2.2.1 rfl
      (Jws.Err.otherErr "not a string") (by rfl)⟩

/-- C6 counterexample: merging a JWS header `b` carrying a non-empty
`crit` list onto the empty header does not leave `b`'s value in the
result — the JWS Merge has no case for Critical (nor Jwk), so the claim
fails at this concrete input. -/
theorem c6_counterexample :
    Except.map (fun r : Jws.Header => r.essential.Critical)
        (Jws.Header.merge Jws.NewHeader
          (some { essential := { Critical := some ["exp"] } })) = .ok none ∧
    (some ["exp"] : Option (List String)) ≠ none := by
  constructor
  · rfl
  · simp

/-- C6 amended: merge(a, b) with b non-nil gives every non-empty essential
field of b as the result's value and every field empty in b keeps a's
value, for every JWE essential field and for every JWS essential field
except Critical and Jwk, which the JWS merge drops entirely (the result's
Critical and Jwk are always empty, because Merge copies the receiver via
Copy — which skips both — and has no merge case for them); extension-map
entries of b unconditionally overwrite same-named entries of a; neither
argument is mutated (the model is functional and Merge allocates a fresh
header). -/
theorem c6_amended :
    (∀ (a b r : Jws.Header), Jws.Header.merge a (some b) = .ok r →
      (r.essential.Algorithm = if b.essential.Algorithm = "" then a.essential.Algorithm
        else b.essential.Algorithm) ∧
      (r.essential.ContentType = if b.essential.ContentType = "" then a.essential.ContentType
        else b.essential.ContentType) ∧
      (r.essential.JwkSetURL = if b.essential.JwkSetURL = none then a.essential.JwkSetURL
        else b.essential.JwkSetURL) ∧
      (r.essential.KeyID = if b.essential.KeyID = "" then a.essential.KeyID
        else b.essential.KeyID) ∧
      (r.essential.Typ = if b.essential.Typ = "" then a.essential.Typ
        else b.essential.Typ) ∧
      (r.essential.X509Url = if b.essential.X509Url = none then a.essential.X509Url
        else b.essential.X509Url) ∧
      (r.essential.X509CertChain = if b.essential.X509CertChain = none then
        a.essential.X509CertChain else b.essential.X509CertChain) ∧
      (r.essential.X509CertThumbprint = if b.essential.X509CertThumbprint = "" then
        a.essential.X509CertThumbprint else b.essential.X509CertThumbprint) ∧
      (r.essential.X509CertThumbprintS256 = if b.essential.X509CertThumbprintS256 = "" then
        a.essential.X509CertThumbprintS256 else b.essential.X509CertThumbprintS256) ∧
      r.essential.Critical = none ∧
      r.essential.Jwk = none ∧
      ((a.privateParams.map Prod.fst).Nodup → (b.privateParams.map Prod.fst).Nodup →
        ∀ k, alookup k r.privateParams =
          match alookup k b.privateParams with
          | some v => some v
          | none => alookup k a.privateParams)) ∧
    (∀ (a b r : Jwe.Header), Jwe.Header.merge a (some b) = .ok r →
      (r.essential.AgreementPartyUInfo = if b.essential.AgreementPartyUInfo.length = 0 then
        a.essential.AgreementPartyUInfo else b.essential.AgreementPartyUInfo) ∧
      (r.essential.AgreementPartyVInfo = if b.essential.AgreementPartyVInfo.length = 0 then
        a.essential.AgreementPartyVInfo else b.essential.AgreementPartyVInfo) ∧
      (r.essential.Algorithm = if b.essential.Algorithm = "" then a.essential.Algorithm
        else b.essential.Algorithm) ∧
      (r.essential.ContentEncryption = if b.essential.ContentEncryption = "" then
        a.essential.ContentEncryption else b.essential.ContentEncryption) ∧
      (r.essential.ContentType = if b.essential.ContentType = "" then a.essential.ContentType
        else b.essential.ContentType) ∧
      (r.essential.Compression = if b.essential.Compression = "" then a.essential.Compression
        else b.essential.Compression) ∧
      (r.essential.Critical = if b.essential.Critical = none then a.essential.Critical
        else b.essential.Critical) ∧
      (r.essential.EphemeralPublicKey = if b.essential.EphemeralPublicKey = none then
        a.essential.EphemeralPublicKey else b.essential.EphemeralPublicKey) ∧
      (r.essential.Jwk = if b.essential.Jwk = none then a.essential.Jwk
        else b.essential.Jwk) ∧
      (r.essential.JwkSetURL = if b.essential.JwkSetURL = none then a.essential.JwkSetURL
        else b.essential.JwkSetURL) ∧
      (r.essential.KeyID = if b.essential.KeyID = "" then a.essential.KeyID
        else b.essential.KeyID) ∧
      (r.essential.Typ = if b.essential.Typ = "" then a.essential.Typ
        else b.essential.Typ) ∧
      (r.essential.X509Url = if b.essential.X509Url = none then a.essential.X509Url
        else b.essential.X509Url) ∧
      (r.essential.X509CertChain = if b.essential.X509CertChain = none then
        a.essential.X509CertChain else b.essential.X509CertChain) ∧
      (r.essential.X509CertThumbprint = if b.essential.X509CertThumbprint = "" then
        a.essential.X509CertThumbprint else b.essential.X509CertThumbprint) ∧
      (r.essential.X509CertThumbprintS256 = if b.essential.X509CertThumbprintS256 = "" then
        a.essential.X509CertThumbprintS256 else b.essential.X509CertThumbprintS256) ∧
      ((a.privateParams.map Prod.fst).Nodup → (b.privateParams.map Prod.fst).Nodup →
        ∀ k, alookup k r.privateParams =
          match alookup k b.privateParams with
          | some v => some v
          | none => alookup k a.privateParams)) := by
  constructor
  · intro a b r hr
    simp only [Jws.Header.merge, Jws.Header.copy] at hr
    injection hr with hr
    subst hr
    refine ⟨?_, ?_, ?_, ?_, ?_, ?_, ?_, ?_, ?_, ?_, ?_, ?_⟩ <;>
      solve
        | (simp only [Jws.EssentialHeader.merge, Jws.EssentialHeader.copyFrom, Jws.NewHeader]
           split_ifs <;> simp_all)
        | (simp [Jws.EssentialHeader.merge, Jws.EssentialHeader.copyFrom, Jws.NewHeader])
        | (intro hna hnb k
           rw [alookup_aoverlay _ _ _ hnb, alookup_aoverlay _ _ _ hna]
           cases hb : alookup k b.privateParams <;> cases ha : alookup k a.privateParams <;>
             simp [alookup, hb, ha, Jws.NewHeader])
  · intro a b r hr
    simp only [Jwe.Header.merge, Jwe.Header.copy] at hr
    injection hr with hr
    subst hr
    refine ⟨?_, ?_, ?_, ?_, ?_, ?_, ?_, ?_, ?_, ?_, ?_, ?_, ?_, ?_, ?_, ?_, ?_⟩ <;>
      solve
        | (simp only [Jwe.EssentialHeader.merge, Jwe.EssentialHeader.copyFrom, Jwe.NewHeader]
           split_ifs <;> simp_all)
        | (simp [Jwe.EssentialHeader.merge, Jwe.EssentialHeader.copyFrom, Jwe.NewHeader])
        | (intro hna hnb k
           rw [alookup_aoverlay _ _ _ hnb, alookup_aoverlay _ _ _ hna]
           cases hb : alookup k b.privateParams <;> cases ha : alookup k a.privateParams <;>
             simp [alookup, hb, ha, Jwe.NewHeader])

/-- Witness for C6's amended claim at concrete headers: b's non-empty
KeyID overrides a's, b's empty Algorithm keeps a's, and the JWS merge
result's Critical is empty. -/
theorem c6_amended_witness :
    Jws.Header.merge { essential := { Algorithm := "HS256", Critical := some ["c"] } }
        (some { essential := { KeyID := "k1" } }) =
      .ok { essential := { Algorithm := "HS256", KeyID := "k1" } } ∧
    ((Jws.Header.merge { essential := { Algorithm := "HS256", Critical := some ["c"] } }
        (some { essential := { KeyID := "k1" } }) =
          .ok { essential := { Algorithm := "HS256", KeyID := "k1" } }) →
      ("HS256" : String) = (if ("" : String) = "" then "HS256" else "") ∧
      ("k1" : String) = (if ("k1" : String) = "" then "" else "k1") ∧
      (none : Option (List String)) = none) :=
  ⟨by rfl,
    fun hr => by
      have h := (c6_amended.1 { essential := { Algorithm := "HS256", Critical := some ["c"] } }
        { essential := { KeyID := "k1" } }
        { essential := { Algorithm := "HS256", KeyID := "k1" } } hr)
      exact ⟨h.1, h.2.2.2.1, h.2.2.2.2.2.2.2.2.2.1⟩⟩

/-- C8 counterexample: copying a JWS header whose `crit` list is non-empty
onto the empty header leaves the destination's Critical empty — the JWS
Copy has no assignment for Critical (nor Jwk), so "every essential field
of dst equals the corresponding field of src" fails at this input. -/
theorem c8_counterexample :
    Jws.Header.copy (some Jws.NewHeader)
        (some { essential := { Critical := some ["exp"] } }) = .ok Jws.NewHeader ∧
    (some ["exp"] : Option (List String)) ≠ none := by
  constructor
  · rfl
  · simp

/-- C8 amended: Copy(dst, src) fails exactly when dst or src is nil and
otherwise succeeds with a full field-for-field replace — for every JWE
essential field, and for every JWS essential field except Critical and
Jwk, which the JWS Copy never assigns (dst keeps its prior values for
those two). -/
theorem c8_amended :
    (∀ s : Option Jws.Header, ∃ e, Jws.Header.copy none s = .error e) ∧
    (∀ d : Jws.Header, ∃ e, Jws.Header.copy (some d) none = .error e) ∧
    (∀ d s : Jws.Header, ∃ r, Jws.Header.copy (some d) (some s) = .ok r) ∧
    (∀ d s r : Jws.Header, Jws.Header.copy (some d) (some s) = .ok r →
      r.essential.Algorithm = s.essential.Algorithm ∧
      r.essential.ContentType = s.essential.ContentType ∧
      r.essential.JwkSetURL = s.essential.JwkSetURL ∧
      r.essential.KeyID = s.essential.KeyID ∧
      r.essential.Typ = s.essential.Typ ∧
      r.essential.X509Url = s.essential.X509Url ∧
      r.essential.X509CertChain = s.essential.X509CertChain ∧
      r.essential.X509CertThumbprint = s.essential.X509CertThumbprint ∧
      r.essential.X509CertThumbprintS256 = s.essential.X509CertThumbprintS256 ∧
      r.essential.Critical = d.essential.Critical ∧
      r.essential.Jwk = d.essential.Jwk) ∧
    (∀ s : Option Jwe.Header, ∃ e, Jwe.Header.copy none s = .error e) ∧
    (∀ d : Jwe.Header, ∃ e, Jwe.Header.copy (some d) none = .error e) ∧
    (∀ d s : Jwe.Header, ∃ r, Jwe.Header.copy (some d) (some s) = .ok r) ∧
    (∀ d s r : Jwe.Header, Jwe.Header.copy (some d) (some s) = .ok r →
      r.essential = s.essential) := by
  refine ⟨fun s => ⟨_, rfl⟩, fun d => ⟨_, rfl⟩, fun d s => ⟨_, rfl⟩, ?_,
    fun s => ⟨_, rfl⟩, fun d => ⟨_, rfl⟩, fun d s => ⟨_, rfl⟩, ?_⟩
  · intro d s r hr
    simp only [Jws.Header.copy] at hr
    injection hr with hr
    subst hr
    simp [Jws.EssentialHeader.copyFrom]
  · intro d s r hr
    simp only [Jwe.Header.copy] at hr
    injection hr with hr
    subst hr
    rfl

/-- Witness for C8's amended claim at concrete headers: nil sides fail,
and a copy from a header with a non-empty KeyID and `crit` list onto the
empty header replaces KeyID but leaves Critical empty. -/
theorem c8_amended_witness :
    (∃ e, Jws.Header.copy none (some Jws.NewHeader) = .error e) ∧
    ((Jws.Header.copy (some Jws.NewHeader)
        (some { essential := { KeyID := "k1", Critical := some ["c"] } }) =
      .ok { essential := { KeyID := "k1" } }) →
      ("k1" : String) = "k1" ∧ (none : Option (List String)) = none) ∧
    Jws.Header.copy (some Jws.NewHeader)
        (some { essential := { KeyID := "k1", Critical := some ["c"] } }) =
      .ok { essential := { KeyID := "k1" } } :=
  ⟨c8_amended.1 (some Jws.NewHeader),
    fun hr =>
      ⟨(c8_amended.2.2.2.1 Jws.NewHeader
          { essential := { KeyID := "k1", Critical := some ["c"] } }
          { essential := { KeyID := "k1" } } hr).2.2.2.1,
        (c8_amended.2.2.2.1 Jws.NewHeader
          { essential := { KeyID := "k1", Critical := some ["c"] } }
          { essential := { KeyID := "k1" } } hr).2.2.2.2.2.2.2.2.2.1⟩,
    by rfl⟩

/-- The JSON keys the jws Header.Set switch actually recognizes
(message.go lines 20-100); note `x5t#256`, not the JOSE key `x5t#S256`. -/
def jwsSetKeys : List String :=
  ["alg", "cty", "kid", "typ", "x5t", "x5t#256", "x5c", "crit", "jku", "x5u"]

/-- The JSON keys the jwe Header.Set switch actually recognizes
(message.go lines 404-528); note `x5t#256` and the absence of `zip` and
`jwk`. -/
def jweSetKeys : List String :=
  ["alg", "apu", "apv", "enc", "cty", "epk", "kid", "typ", "x5t", "x5t#256", "x5c", "crit",
    "jku", "x5u"]

/-- C7 counterexample: the JOSE essential keys `x5t#S256` (both headers —
the switch tests `x5t#256`), `zip` and `jwk` (jwe) are not routed to their
typed essential fields by Set but stored in the extension map, so the
claimed essential-set/extension-map invariant fails at these inputs. -/
theorem c7_counterexample :
    (Jws.Header.set Jws.NewHeader "x5t#S256" (GoValue.str "t")).1.essential.X509CertThumbprintS256
        = "" ∧
    alookup "x5t#S256"
        (Jws.Header.set Jws.NewHeader "x5t#S256" (GoValue.str "t")).1.privateParams =
      some (GoValue.str "t") ∧
    (Jwe.Header.set Jwe.NewHeader "zip" (GoValue.str "DEF")).1.essential.Compression = "" ∧
    alookup "zip" (Jwe.Header.set Jwe.NewHeader "zip" (GoValue.str "DEF")).1.privateParams =
      some (GoValue.str "DEF") ∧
    (Jwe.Header.set Jwe.NewHeader "jwk" (GoValue.other 5)).1.essential.Jwk = none ∧
    alookup "jwk" (Jwe.Header.set Jwe.NewHeader "jwk" (GoValue.other 5)).1.privateParams =
      some (GoValue.other 5) :=
  ⟨by rfl, by rfl, by rfl, by rfl, by rfl, by rfl⟩

/-- C7 amended: Set routes exactly the keys of the switch lists
(`jwsSetKeys` / `jweSetKeys`) to typed essential fields — leaving the
extension map untouched for those keys — and stores every key outside the
lists verbatim in the extension map with no error; in particular
`x5t#S256` (both headers) and `zip` and `jwk` (jwe) are extension-map
keys for Set, not essential ones. -/
theorem c7_amended (key : String) (value : GoValue) :
    (∀ h : Jws.Header,
      (key ∈ jwsSetKeys →
        (Jws.Header.set h key value).1.privateParams = h.privateParams) ∧
      (key ∉ jwsSetKeys →
        Jws.Header.set h key value =
          ({ h with privateParams := ainsert key value h.privateParams }, none))) ∧
    (∀ h : Jwe.Header,
      (key ∈ jweSetKeys →
        (Jwe.Header.set h key value).1.privateParams = h.privateParams) ∧
      (key ∉ jweSetKeys →
        Jwe.Header.set h key value =
          ({ h with privateParams := ainsert key value h.privateParams }, none))) := by
  constructor
  · intro h
    constructor
    · intro hk
      simp only [jwsSetKeys, List.mem_cons, List.not_mem_nil, or_false] at hk
      rcases hk with rfl | rfl | rfl | rfl | rfl | rfl | rfl | rfl | rfl | rfl <;>
        cases value <;>
          solve
            | simp [Jws.Header.set]
            | (simp only [Jws.Header.set]; split <;> simp)
    · intro hk
      simp only [jwsSetKeys, List.mem_cons, List.not_mem_nil, or_false] at hk
      push_neg at hk
      unfold Jws.Header.set
      split <;> first | rfl | simp_all
  · intro h
    constructor
    · intro hk
      simp only [jweSetKeys, List.mem_cons, List.not_mem_nil, or_false] at hk
      rcases hk with rfl | rfl | rfl | rfl | rfl | rfl | rfl | rfl | rfl | rfl | rfl | rfl
          | rfl | rfl <;>
        cases value <;>
          solve
            | simp [Jwe.Header.set]
            | (simp only [Jwe.Header.set]; split <;> simp)
    · intro hk
      simp only [jweSetKeys, List.mem_cons, List.not_mem_nil, or_false] at hk
      push_neg at hk
      unfold Jwe.Header.set
      split <;> first | rfl | simp_all

/-- Witness for C7's amended claim: `alg` is routed (extension map stays
empty) and `zip` lands verbatim in the jwe extension map. -/
theorem c7_amended_witness :
    ("alg" ∈ jwsSetKeys ∧
      (Jws.Header.set Jws.NewHeader "alg" (GoValue.str "HS256")).1.privateParams = []) ∧
    ("zip" ∉ jweSetKeys ∧
      Jwe.Header.set Jwe.NewHeader "zip" (GoValue.str "DEF") =
        ({ Jwe.NewHeader with
            privateParams := ainsert "zip" (GoValue.str "DEF") Jwe.NewHeader.privateParams },
          none)) :=
  ⟨⟨by decide, ((c7_amended "alg" (GoValue.str "HS256")).1 Jws.NewHeader).1 (by decide)⟩,
    ⟨by decide, ((c7_amended "zip" (GoValue.str "DEF")).2 Jwe.NewHeader).2 (by decide)⟩⟩

/-- C1 failing input: the decoded protected-header JSON text of
`{"kid":"a","alg":"HS256"}` — well-formed, but with keys in an order Go's
marshaler would not produce. -/
def c1bytes : JsonBytes := [("kid", GoValue.str "a"), ("alg", GoValue.str "HS256")]

/-- C1: decode does store the decoded bytes as Source in the jws package,
but encode (jws EncodedHeader.MarshalJSON) re-marshals the Header
unconditionally — it never returns a non-empty Source verbatim — and the
jwe EncodedHeader.UnmarshalJSON never stores Source at all; so re-encoding
a parsed, unmutated header does not return the original bytes when they
use non-canonical key order. -/
theorem c1_source_stored_but_never_echoed :
    (Jws.EncodedHeader.unmarshalJSON c1bytes).Source = c1bytes ∧
    (Jws.EncodedHeader.unmarshalJSON c1bytes).Source ≠ [] ∧
    Jws.EncodedHeader.marshalJSON (Jws.EncodedHeader.unmarshalJSON c1bytes) =
      [("alg", GoValue.str "HS256"), ("kid", GoValue.str "a")] ∧
    Jws.EncodedHeader.marshalJSON (Jws.EncodedHeader.unmarshalJSON c1bytes) ≠ c1bytes ∧
    (Jwe.EncodedHeader.unmarshalJSON c1bytes).Source = [] :=
  ⟨rfl, by decide, rfl, by decide, rfl⟩

/-- C2 environment: the content cipher echoes the AAD it is handed as the
plaintext, exposing which buffer Decrypt used as AAD. -/
def c2env : Jwe.DecryptEnv :=
  { buildContentCipher := fun enc =>
      if enc = "E" then some { keySize := 16, decrypt := fun _ _ _ _ aad => some aad }
      else none
    buildKeyDecrypter := fun _ _ _ _ => some { keyDecrypt := fun b => some b } }

/-- C2 failing input: a message whose protected header has non-empty
source bytes and whose `aad` buffer (`AuthenticatedData`) is a different,
one-byte buffer. -/
def c2msg : Jwe.Message :=
  { ProtectedHeader :=
      { header := { essential := { ContentEncryption := "E" } }
        Source := [("alg", GoValue.str "A"), ("enc", GoValue.str "E")] }
    AuthenticatedData := [9]
    Recipients := [{ Header := { essential := { Algorithm := "A" } }, EncryptedKey := [2] }] }

/-- C2: Decrypt hands the content cipher the base64url encoding of the
Message's `AuthenticatedData` buffer as AAD — the echo cipher returns
exactly that — and not the base64url encoding of the protected header's
wire bytes, which differs. -/
theorem c2_aad_is_authenticated_data_buffer :
    Jwe.Message.decrypt c2env c2msg "A" 0 = .ok (base64urlEncode c2msg.AuthenticatedData) ∧
    c2msg.ProtectedHeader.Source ≠ [] ∧
    base64urlEncode c2msg.AuthenticatedData ≠
      base64urlEncode (jsonRender c2msg.ProtectedHeader.Source) :=
  ⟨rfl, by decide, by decide⟩

/-- C3 environment: the content cipher always succeeds with plaintext
`[42]`; the key decrypter fails exactly on wrapped-CEK bytes `[1]`. -/
def c3env : Jwe.DecryptEnv :=
  { buildContentCipher := fun enc =>
      if enc = "E" then some { keySize := 16, decrypt := fun _ _ _ _ _ => some [42] }
      else none
    buildKeyDecrypter := fun _ _ _ _ =>
      some { keyDecrypt := fun b => if b = [1] then none else some b } }

/-- C3 failing input: two recipients with the same algorithm; the first
one's wrapped CEK does not decrypt, the second one's does. -/
def c3msg : Jwe.Message :=
  { ProtectedHeader := { header := { essential := { ContentEncryption := "E" } } }
    Recipients :=
      [{ Header := { essential := { Algorithm := "A" } }, EncryptedKey := [1] },
        { Header := { essential := { Algorithm := "A" } }, EncryptedKey := [2] }] }

/-- The same message with the recipients in the other order. -/
def c3msgRev : Jwe.Message :=
  { ProtectedHeader := { header := { essential := { ContentEncryption := "E" } } }
    Recipients :=
      [{ Header := { essential := { Algorithm := "A" } }, EncryptedKey := [2] },
        { Header := { essential := { Algorithm := "A" } }, EncryptedKey := [1] }] }

/-- C3: a failure to decrypt the first recipient's wrapped CEK aborts the
whole Decrypt call (`return nil, err`; the `continue` after it is
unreachable) even though the second recipient would succeed — as the
reversed order shows — contradicting the claimed skip-and-continue
behavior. -/
theorem c3_keydecrypt_failure_aborts_decrypt :
    Jwe.Message.decrypt c3env c3msg "A" 0 = .error "failed to decrypt key" ∧
    Jwe.Message.decrypt c3env c3msgRev "A" 0 = .ok [42] :=
  ⟨rfl, rfl⟩

/-- C4 environment: content decryption succeeds, recovering `deflate [7]`
— a plaintext that was deflate-compressed before encryption. -/
def c4env : Jwe.DecryptEnv :=
  { buildContentCipher := fun enc =>
      if enc = "E" then some { keySize := 16, decrypt := fun _ _ _ _ _ => some (deflate [7]) }
      else none
    buildKeyDecrypter := fun _ _ _ _ => some { keyDecrypt := fun b => some b } }

/-- C4 failing input: one matching recipient and a protected header whose
`zip` field is the Deflate indicator. -/
def c4msg : Jwe.Message :=
  { ProtectedHeader :=
      { header := { essential := { ContentEncryption := "E", Compression := DeflateAlg } } }
    Recipients := [{ Header := { essential := { Algorithm := "A" } }, EncryptedKey := [2] }] }

/-- C4: with compression indicated, Decrypt feeds the recovered plaintext
`deflate [7]` through a flate *writer*, returning it deflate-compressed a
second time — not the decompression `[7]` the claim requires (which
`inflate` would produce). -/
theorem c4_compresses_instead_of_inflating :
    Jwe.Message.decrypt c4env c4msg "A" 0 = .ok (deflate (deflate [7])) ∧
    inflate (deflate [7]) = some [7] ∧
    deflate (deflate [7]) ≠ [7] :=
  ⟨rfl, rfl, by decide⟩

/-- C5 environment: everything downstream of the algorithm check succeeds
(key decryption echoes the wrapped bytes, content decryption returns
`[42]`). -/
def c5env : Jwe.DecryptEnv :=
  { buildContentCipher := fun enc =>
      if enc = "E" then some { keySize := 16, decrypt := fun _ _ _ _ _ => some [42] }
      else none
    buildKeyDecrypter := fun _ _ _ _ => some { keyDecrypt := fun b => some b } }

/-- C5 input: the single recipient's own header omits `alg`, while the
protected header carries the matching algorithm, so the merged effective
header's algorithm equals the caller-supplied one. -/
def c5msg : Jwe.Message :=
  { ProtectedHeader :=
      { header := { essential := { Algorithm := "A", ContentEncryption := "E" } } }
    Recipients := [{ Header := Jwe.NewHeader, EncryptedKey := [2] }] }

/-- C5 counterexample: the recipient's merged effective header carries the
matching algorithm "A", yet Decrypt skips the recipient (its own header's
alg is empty) and fails — the claim says it is not skipped. -/
theorem c5_counterexample :
    Jwe.Message.decrypt c5env c5msg "A" 0 =
      .error "failed to find matching recipient to decrypt key" ∧
    Except.map (fun r : Jwe.Header => r.essential.Algorithm)
        (Jwe.Header.merge { essential := { Algorithm := "A", ContentEncryption := "E" } }
          (some Jwe.NewHeader)) = .ok "A" :=
  ⟨rfl, rfl⟩

/-- A dispatch environment whose key decrypters always fail, making it
observable whether a recipient was processed rather than skipped. -/
def c5failEnv : Jwe.DecryptEnv :=
  { buildContentCipher := fun _ => none
    buildKeyDecrypter := fun _ _ _ _ => some { keyDecrypt := fun _ => none } }

/-- C5 amended: in Decrypt's recipient loop a recipient is skipped exactly
when its *own* header's alg field (not the merged effective one, which is
computed only after the check) differs from the caller-supplied alg: if it
differs the loop's result is that of the remaining recipients regardless
of every other input, and if it matches the recipient is processed — with
an always-failing key decrypter the loop aborts on it instead of skipping. -/
theorem c5_amended (env : Jwe.DecryptEnv) (cipher : Jwe.ContentCipher) (h : Jwe.Header)
    (alg : String) (key : Jwe.GoKey) (keysize : Nat) (aad iv ct tag : Bytes)
    (r : Jwe.Recipient) (rest : List Jwe.Recipient) :
    (r.Header.essential.Algorithm ≠ alg →
      Jwe.decryptLoop env cipher h alg key keysize aad iv ct tag (r :: rest) =
        Jwe.decryptLoop env cipher h alg key keysize aad iv ct tag rest) ∧
    (r.Header.essential.Algorithm = alg →
      (∀ a h2 k ks, env.buildKeyDecrypter a h2 k ks =
        some { keyDecrypt := fun _ => none }) →
      Jwe.decryptLoop env cipher h alg key keysize aad iv ct tag (r :: rest) =
        .error "failed to decrypt key") := by
  constructor
  · intro hne
    simp [Jwe.decryptLoop, hne]
  · intro heq henv
    simp [Jwe.decryptLoop, heq, Jwe.Header.merge, Jwe.Header.copy, henv]

/-- Witness for C5's amended claim: a recipient with empty own alg is
skipped (the loop result equals the empty-list result), and one with
matching own alg is processed and aborts under the always-failing
decrypter. -/
theorem c5_amended_witness :
    Jwe.decryptLoop c5env { keySize := 16, decrypt := fun _ _ _ _ _ => some [42] }
        Jwe.NewHeader "A" 0 16 [] [] [] []
        [{ Header := Jwe.NewHeader, EncryptedKey := [2] }] =
      Jwe.decryptLoop c5env { keySize := 16, decrypt := fun _ _ _ _ _ => some [42] }
        Jwe.NewHeader "A" 0 16 [] [] [] [] [] ∧
    Jwe.decryptLoop c5failEnv { keySize := 16, decrypt := fun _ _ _ _ _ => some [42] }
        Jwe.NewHeader "A" 0 16 [] [] [] []
        [{ Header := { essential := { Algorithm := "A" } }, EncryptedKey := [2] }] =
      .error "failed to decrypt key" :=
  ⟨(c5_amended c5env { keySize := 16, decrypt := fun _ _ _ _ _ => some [42] }
      Jwe.NewHeader "A" 0 16 [] [] [] []
      { Header := Jwe.NewHeader, EncryptedKey := [2] } []).1 (by decide),
    (c5_amended c5failEnv { keySize := 16, decrypt := fun _ _ _ _ _ => some [42] }
      Jwe.NewHeader "A" 0 16 [] [] [] []
      { Header := { essential := { Algorithm := "A" } }, EncryptedKey := [2] } []).2 rfl
      (fun _ _ _ _ => rfl)⟩
